import Mathlib

/-!
# Verification of the xpra tray example harness

Shallow embedding of `xpra/client/gtk_base/example/tray.py`:
the `FakeApplication` constructor (menu-helper selection, tray-backend
selection, tooltip binding), the tray event callbacks
(`xpra_tray_click`, `xpra_tray_mouseover`, `xpra_tray_exit`,
`xpra_tray_geometry`) and the mock client-state record.

Python classes whose constructors may fail are modelled as records
carrying a success flag and the identifier of the object the
constructor would produce; a value `none` stands for Python `None`
(a falsy candidate skipped by the `if x:` guard) or for an importer
that raised `ImportError`.
-/

/-- A menu-helper candidate class (`get_native_tray_menu_helper_class()`
result or `GTK3TrayMenu`): `ctorOk` records whether `x(self)` succeeds,
`menuId` is the handle returned by `build()` on the constructed helper. -/
structure MenuHelperClass where
  ctorOk : Bool
  menuId : Nat
deriving DecidableEq

/-- A tray-backend candidate class (an element of
`get_native_tray_classes()` or `GTKStatusIconTray`): `ctorOk` records
whether the nine-argument constructor succeeds, `handleId` identifies
the tray instance it would produce. -/
structure TrayClass where
  ctorOk : Bool
  handleId : Nat
deriving DecidableEq

/-- Observable events of `FakeApplication.__init__`, in program order:
a menu-helper construction attempt, the single `menu_helper.build()`
call, and a tray-backend construction attempt carrying the menu handle
passed as the third constructor argument. -/
inductive Event where
  | menuHelperAttempt (c : MenuHelperClass)
  | menuBuilt (menu : Nat)
  | trayAttempt (c : TrayClass) (menu : Nat)
deriving DecidableEq

/-- Exceptions that can escape `FakeApplication.__init__`. -/
inductive InitError where
  /-- `NameError`/`UnboundLocalError`: `GTKTrayMenu` was never bound
  because the `from xpra.client.gtk3.tray_menu import ...` failed and
  its `except ImportError` clause only logs. -/
  | nameError
  /-- `AttributeError` raised by `assert self.menu_helper` when no
  menu-helper candidate was constructed, so the attribute is unset. -/
  | menuHelperUnset
  /-- `AttributeError` raised by `self.tray.set_tooltip(...)` when no
  tray-backend candidate was constructed, so the attribute is unset. -/
  | trayUnset
deriving DecidableEq

/-- Configuration of the environment `__init__` runs in: which imports
succeed, what the platform getters return, and how each candidate
constructor behaves. -/
structure InitConfig where
  /-- `some c` if `from xpra.client.gtk3.tray_menu import GTK3TrayMenu`
  succeeds and yields class `c`; `none` if it raises `ImportError`. -/
  gtkMenuImport : Option MenuHelperClass
  /-- Result of `get_native_tray_menu_helper_class()` (may be `None`). -/
  nativeMenuHelper : Option MenuHelperClass
  /-- Result of `get_native_tray_classes()`; entries may be falsy. -/
  nativeTrayClasses : List (Option TrayClass)
  /-- `some c` if `from ... import GTKStatusIconTray` succeeds; `none`
  if it raises `ImportError` (the except clause binds the name to
  `None`, which the `if x:` guard then skips). -/
  gtkStatusIconTray : Option TrayClass
deriving DecidableEq

/-- The menu-helper loop
`for x in (get_native_tray_menu_helper_class(), GTKTrayMenu): ...` —
each truthy candidate is attempted; on success `self.menu_helper` is
overwritten (there is no `break`), on failure the previous binding is
kept and a warning is logged. -/
def menuLoop : Option MenuHelperClass → List (Option MenuHelperClass) →
    Option MenuHelperClass
  | st, [] => st
  | st, none :: rest => menuLoop st rest
  | st, some c :: rest => menuLoop (if c.ctorOk then some c else st) rest

/-- Trace of menu-helper construction attempts made by `menuLoop`. -/
def menuAttempts : List (Option MenuHelperClass) → List Event
  | [] => []
  | none :: rest => menuAttempts rest
  | some c :: rest => Event.menuHelperAttempt c :: menuAttempts rest

/-- The tray-backend candidate list
`get_native_tray_classes() + [GTKStatusIconTray]`. -/
def trayCands (cfg : InitConfig) : List (Option TrayClass) :=
  cfg.nativeTrayClasses ++ [cfg.gtkStatusIconTray]

/-- The tray loop `for x in get_native_tray_classes()+[GTKStatusIconTray]:`
with the built menu handle in scope.  Each truthy candidate's
constructor is attempted with `menu` as third argument; on success
`self.tray` is overwritten (there is no `break`), on failure a warning
is logged.  Returns the final `self.tray` binding (`none` = attribute
never set) and the trace of construction attempts. -/
def trayLoop (menu : Nat) : Option Nat → List (Option TrayClass) →
    Option Nat × List Event
  | st, [] => (st, [])
  | st, none :: rest => trayLoop menu st rest
  | st, some c :: rest =>
    let st' := if c.ctorOk then some c.handleId else st
    let r := trayLoop menu st' rest
    (r.1, Event.trayAttempt c menu :: r.2)

/-- `FakeApplication.__init__` from the point where the menu machinery
starts (the preceding ~60 field assignments are pure record fields,
modelled by `fakeApplicationState` below).  Returns either the tray
handle bound in `self.tray` when construction completes (after
`set_tooltip` succeeds) or the exception that escapes, together with
the trace of observable events. -/
def FakeApplication.init (cfg : InitConfig) : Except InitError Nat × List Event :=
  match cfg.gtkMenuImport with
  | none =>
    -- the import failed; the except clause only logged, so evaluating
    -- the tuple `(get_native_tray_menu_helper_class(), GTKTrayMenu)`
    -- raises NameError before any candidate is attempted
    (Except.error InitError.nameError, [])
  | some g =>
    let mcands : List (Option MenuHelperClass) := [cfg.nativeMenuHelper, some g]
    match menuLoop none mcands with
    | none =>
      -- `assert self.menu_helper` reads an attribute that was never set
      (Except.error InitError.menuHelperUnset, menuAttempts mcands)
    | some mh =>
      let menu := mh.menuId
      let r := trayLoop menu none (trayCands cfg)
      let trace := menuAttempts mcands ++ Event.menuBuilt menu :: r.2
      match r.1 with
      | none =>
        -- `self.tray.set_tooltip(...)` reads an attribute never set
        (Except.error InitError.trayUnset, trace)
      | some h => (Except.ok h, trace)

/-- The result (tray handle or escaping exception) of construction. -/
def initResult (cfg : InitConfig) : Except InitError Nat :=
  (FakeApplication.init cfg).1

/-- The event trace of construction. -/
def initTrace (cfg : InitConfig) : List Event :=
  (FakeApplication.init cfg).2

/-- The menu-helper bound after the menu loop, `none` when construction
never reaches the tray phase (import `NameError` or failed assert). -/
def menuPhase (cfg : InitConfig) : Option MenuHelperClass :=
  match cfg.gtkMenuImport with
  | none => none
  | some g => menuLoop none [cfg.nativeMenuHelper, some g]

/-- Spec-side description (`Stop at the first candidate that constructs
without error`): the handle of the first candidate, in list order,
whose constructor succeeds. -/
def firstSuccess : List (Option TrayClass) → Option Nat
  | [] => none
  | none :: rest => firstSuccess rest
  | some c :: rest => if c.ctorOk then some c.handleId else firstSuccess rest

/-- The handle of the last candidate, in list order, whose constructor
succeeds — what the source's break-less loop actually leaves bound. -/
def lastSuccess : List (Option TrayClass) → Option Nat
  | [] => none
  | none :: rest => lastSuccess rest
  | some c :: rest =>
    match lastSuccess rest with
    | some h => some h
    | none => if c.ctorOk then some c.handleId else none

/-- `true` iff every candidate is falsy or has a failing constructor. -/
def allFail (l : List (Option TrayClass)) : Bool :=
  l.all fun x => match x with
    | none => true
    | some c => !c.ctorOk

/-- A call deferred through the idle-callback scheduler
(`self.idle_add(self.menu_helper.activate, button, time)` /
`self.idle_add(self.menu_helper.popup, button, time)`). -/
inductive Deferred where
  | activate (button : Nat) (time : Nat)
  | popup (button : Nat) (time : Nat)
deriving DecidableEq

/-- `FakeApplication.xpra_tray_click(button, pressed, time)`: returns
the list of calls the handler schedules via `idle_add`.  The source is
an `if button==1 and pressed` / `elif button==3 and not pressed`
chain; every other combination only logs. -/
def xpra_tray_click (button : Nat) (pressed : Bool) (time : Nat) : List Deferred :=
  if button == 1 && pressed then [Deferred.activate button time]
  else if button == 3 && !pressed then [Deferred.popup button time]
  else []

/-- A constructed tray-backend instance as seen by the geometry
callback: `geometry = none` models a torn-down handle whose
`get_geometry()` call raises. -/
structure TrayHandleObj where
  geometry : Option (Nat × Nat × Nat × Nat)
deriving DecidableEq

/-- Exceptions observable in the event callbacks. -/
inductive PyErr where
  /-- `AttributeError`: `self.tray` was never bound. -/
  | attributeError
  /-- an exception raised by the backend's `get_geometry()`. -/
  | backendError
deriving DecidableEq

/-- `tray.get_geometry()` on a handle: raises when torn down. -/
def TrayHandleObj.get_geometry (h : TrayHandleObj) :
    Except PyErr (Nat × Nat × Nat × Nat) :=
  match h.geometry with
  | none => Except.error PyErr.backendError
  | some g => Except.ok g

/-- `FakeApplication.xpra_tray_geometry(*args)`: the body is a single
`log(..., self.tray.get_geometry())` with no exception guard, so any
exception from the attribute access or the geometry call escapes. -/
def xpra_tray_geometry (tray : Option TrayHandleObj) : Except PyErr Unit :=
  match tray with
  | none => Except.error PyErr.attributeError
  | some h =>
    match h.get_geometry with
    | Except.error e => Except.error e
    | Except.ok _ => Except.ok ()

/-- Application-level state driven by the tray event callbacks:
`pending` is the idle-callback queue, `mainLoopRunning` the GTK main
loop flag cleared by `Gtk.main_quit()`. -/
structure AppState where
  pending : List Deferred
  mainLoopRunning : Bool
deriving DecidableEq

/-- A raw tray-backend event delivered to one of the four callbacks. -/
inductive TrayEvent where
  | click (button : Nat) (pressed : Bool) (time : Nat)
  | mouseover
  | exitRequest
  | geometryQuery
deriving DecidableEq

/-- Effect of each callback on the application state:
`xpra_tray_click` enqueues its deferred calls, `xpra_tray_mouseover`
and `xpra_tray_geometry` only log, `xpra_tray_exit` calls
`Gtk.main_quit()` (modelled as clearing the main-loop flag). -/
def handleEvent (s : AppState) : TrayEvent → AppState
  | TrayEvent.click b p t => { s with pending := s.pending ++ xpra_tray_click b p t }
  | TrayEvent.mouseover => s
  | TrayEvent.exitRequest => { s with mainLoopRunning := false }
  | TrayEvent.geometryQuery => s

/-- The coordinator's terminal state: the main loop has quit. -/
def Terminated (s : AppState) : Prop :=
  s.mainLoopRunning = false

instance (s : AppState) : Decidable (Terminated s) := by
  unfold Terminated; infer_instance

/-- The mock client-state record: the plain field assignments at the
top of `FakeApplication.__init__` that collaborators read (the full
record has ~60 fields; the negotiated-session and capability fields
relevant to the claims are embedded here with their source values). -/
structure MockClientState where
  session_name : String
  mmap_enabled : Bool
  windows_enabled : Bool
  readonly : Bool
  opengl_enabled : Bool
  server_encodings : List String
  server_encodings_problematic : List String
  server_virtual_video_devices : Nat
  server_bandwidth_limit_change : Nat
  server_clipboard : Bool
  speaker_enabled : Bool
  microphone_enabled : Bool
  clipboard_enabled : Bool
  cursors_enabled : Bool
  bell_enabled : Bool
  notifications_enabled : Bool
  quality : Nat
  speed : Nat
  encoding : String
deriving DecidableEq

/-- The field values assigned in `FakeApplication.__init__`. -/
def fakeApplicationState : MockClientState :=
  { session_name := "Test System Tray"
    mmap_enabled := false
    windows_enabled := true
    readonly := false
    opengl_enabled := false
    server_encodings := ["png", "rgb"]
    server_encodings_problematic := []
    server_virtual_video_devices := 4
    server_bandwidth_limit_change := 0
    server_clipboard := false
    speaker_enabled := true
    microphone_enabled := true
    clipboard_enabled := true
    cursors_enabled := true
    bell_enabled := false
    notifications_enabled := false
    quality := 80
    speed := 50
    encoding := "png" }

/-- The tray handle left bound by the tray loop (`none` when the loop
never ran or never succeeded), ignoring the subsequent `set_tooltip`. -/
def trayBound (cfg : InitConfig) : Option Nat :=
  match menuPhase cfg with
  | none => none
  | some mh => (trayLoop mh.menuId none (trayCands cfg)).1

/-!  ## Helper lemmas -/

/-- The tray loop's final binding is the last successful candidate,
falling back to the binding it started from. -/
theorem trayLoop_fst (menu : Nat) (l : List (Option TrayClass)) :
    ∀ st, (trayLoop menu st l).1 =
      match lastSuccess l with
      | some h => some h
      | none => st := by
  induction l with
  | nil => intro st; rfl
  | cons x rest ih =>
    intro st
    cases x with
    | none =>
      simp only [trayLoop, lastSuccess]
      exact ih st
    | some c =>
      simp only [trayLoop, lastSuccess]
      rw [ih]
      cases hls : lastSuccess rest with
      | none => cases hc : c.ctorOk <;> simp
      | some h => simp

/-- If every candidate fails there is no last success. -/
theorem lastSuccess_eq_none (l : List (Option TrayClass))
    (hf : allFail l = true) : lastSuccess l = none := by
  induction l with
  | nil => rfl
  | cons x rest ih =>
    cases x with
    | none =>
      simp only [allFail, List.all_cons, Bool.true_and] at hf
      simp only [lastSuccess]
      exact ih hf
    | some c =>
      simp only [allFail, List.all_cons, Bool.and_eq_true, Bool.not_eq_true'] at hf
      simp only [lastSuccess, ih (by simpa [allFail] using hf.2), hf.1]
      simp

/-- The menu loop emits no tray-construction attempt. -/
theorem menuAttempts_no_tray (l : List (Option MenuHelperClass))
    (c : TrayClass) (m : Nat) :
    Event.trayAttempt c m ∉ menuAttempts l := by
  induction l with
  | nil => simp [menuAttempts]
  | cons x rest ih =>
    cases x with
    | none => simpa [menuAttempts] using ih
    | some mc => simp [menuAttempts, ih]

/-- Every tray-construction attempt in the tray loop's trace carries
the menu handle the loop was given. -/
theorem trayLoop_trace_menu (menu : Nat) (l : List (Option TrayClass)) :
    ∀ st c m, Event.trayAttempt c m ∈ (trayLoop menu st l).2 → m = menu := by
  induction l with
  | nil =>
    intro st c m hm
    simp [trayLoop] at hm
  | cons x rest ih =>
    intro st c m hm
    cases x with
    | none => exact ih st c m (by simpa [trayLoop] using hm)
    | some tc =>
      simp only [trayLoop, List.mem_cons, Event.trayAttempt.injEq] at hm
      rcases hm with ⟨_, h2⟩ | h
      · exact h2
      · exact ih _ c m h

/-- Construction when the `GTK3TrayMenu` import fails: `NameError`. -/
theorem init_nameError (cfg : InitConfig) (hg : cfg.gtkMenuImport = none) :
    FakeApplication.init cfg = (Except.error InitError.nameError, []) := by
  unfold FakeApplication.init
  rw [hg]

/-- Construction when the import succeeds but no menu helper is bound:
the assert's attribute access raises. -/
theorem init_menuUnset (cfg : InitConfig) (g : MenuHelperClass)
    (hg : cfg.gtkMenuImport = some g)
    (hm : menuLoop none [cfg.nativeMenuHelper, some g] = none) :
    FakeApplication.init cfg =
      (Except.error InitError.menuHelperUnset,
       menuAttempts [cfg.nativeMenuHelper, some g]) := by
  unfold FakeApplication.init
  rw [hg]
  simp only [hm]

/-- Construction once a menu helper is bound: the menu is built, then
the tray loop runs with that menu handle. -/
theorem init_withMenu (cfg : InitConfig) (g mh : MenuHelperClass)
    (hg : cfg.gtkMenuImport = some g)
    (hm : menuLoop none [cfg.nativeMenuHelper, some g] = some mh) :
    FakeApplication.init cfg =
      ((match (trayLoop mh.menuId none (trayCands cfg)).1 with
        | none => Except.error InitError.trayUnset
        | some h => Except.ok h),
       menuAttempts [cfg.nativeMenuHelper, some g] ++
         Event.menuBuilt mh.menuId :: (trayLoop mh.menuId none (trayCands cfg)).2) := by
  unfold FakeApplication.init
  rw [hg]
  simp only [hm]
  cases (trayLoop mh.menuId none (trayCands cfg)).1 <;> rfl

/-!  ## Concrete configurations used as witnesses and counterexamples -/

/-- Two tray candidates, both constructible, with distinct handles. -/
def cfgTwoTrays : InitConfig :=
  { gtkMenuImport := some { ctorOk := true, menuId := 5 }
    nativeMenuHelper := none
    nativeTrayClasses := [some { ctorOk := true, handleId := 10 }]
    gtkStatusIconTray := some { ctorOk := true, handleId := 20 } }

/-- Menu machinery works but every tray candidate fails or is falsy. -/
def cfgNoTray : InitConfig :=
  { gtkMenuImport := some { ctorOk := true, menuId := 5 }
    nativeMenuHelper := none
    nativeTrayClasses := [some { ctorOk := false, handleId := 10 }, none]
    gtkStatusIconTray := none }

/-- A failing native menu helper, a working GTK one, and a mix of
failing and succeeding tray candidates. -/
def cfgMixed : InitConfig :=
  { gtkMenuImport := some { ctorOk := true, menuId := 6 }
    nativeMenuHelper := some { ctorOk := false, menuId := 4 }
    nativeTrayClasses := [none, some { ctorOk := false, handleId := 11 }]
    gtkStatusIconTray := some { ctorOk := true, handleId := 21 } }

/-- The `GTK3TrayMenu` import fails while a perfectly good native menu
helper is available. -/
def cfgImportFail : InitConfig :=
  { gtkMenuImport := none
    nativeMenuHelper := some { ctorOk := true, menuId := 3 }
    nativeTrayClasses := []
    gtkStatusIconTray := some { ctorOk := true, handleId := 9 } }

/-!  ## Claims -/

/-- Claim C1 is false as stated: with two constructible tray candidates
the first successful candidate has handle 10, but construction leaves
handle 20 (the second, last successful candidate) bound in `self.tray`
— the loop has no `break`, so each success overwrites the binding. -/
theorem tray_not_first_success :
    firstSuccess (trayCands cfgTwoTrays) = some 10 ∧
    ¬ initResult cfgTwoTrays = Except.ok 10 := by
  refine ⟨rfl, ?_⟩
  intro hc
  have h20 : initResult cfgTwoTrays = Except.ok 20 := rfl
  rw [h20] at hc
  exact (by decide : ¬ (20 : Nat) = 10) (Except.ok.inj hc)

/-- Claim C1, amended: for every ordering of the tray-backend candidate
list, if construction reaches the tray phase and at least one
candidate's constructor succeeds, the handle bound in `self.tray` at
the end of construction is the last candidate, in list order, whose
constructor succeeds. -/
theorem tray_binds_last_success (cfg : InitConfig) (mh : MenuHelperClass)
    (h : Nat) (hm : menuPhase cfg = some mh)
    (hs : lastSuccess (trayCands cfg) = some h) :
    initResult cfg = Except.ok h := by
  unfold menuPhase at hm
  cases hg : cfg.gtkMenuImport with
  | none => rw [hg] at hm; cases hm
  | some g =>
    rw [hg] at hm
    unfold initResult
    rw [init_withMenu cfg g mh hg hm]
    simp only [trayLoop_fst, hs]

/-- Witness for the amended C1 at a concrete configuration. -/
theorem tray_binds_last_success_witness :
    menuPhase cfgTwoTrays = some { ctorOk := true, menuId := 5 } ∧
    lastSuccess (trayCands cfgTwoTrays) = some 20 ∧
    initResult cfgTwoTrays = Except.ok 20 :=
  ⟨rfl, rfl,
   tray_binds_last_success cfgTwoTrays { ctorOk := true, menuId := 5 } 20 rfl rfl⟩

/-- Claim C2: if every tray-backend candidate's constructor fails,
no tray handle is left bound and `FakeApplication` construction fails
with an exception (the `AttributeError` from `set_tooltip` on the
unset attribute); construction never completes with an absent handle. -/
theorem all_tray_fail_aborts (cfg : InitConfig)
    (hf : allFail (trayCands cfg) = true) :
    trayBound cfg = none ∧ ∃ e, initResult cfg = Except.error e := by
  have hls := lastSuccess_eq_none _ hf
  constructor
  · unfold trayBound
    cases hm : menuPhase cfg with
    | none => rfl
    | some mh => simp only [trayLoop_fst, hls]
  · cases hg : cfg.gtkMenuImport with
    | none => exact ⟨InitError.nameError, by unfold initResult; rw [init_nameError cfg hg]⟩
    | some g =>
      cases hm : menuLoop none [cfg.nativeMenuHelper, some g] with
      | none =>
        exact ⟨InitError.menuHelperUnset, by
          unfold initResult; rw [init_menuUnset cfg g hg hm]⟩
      | some mh =>
        refine ⟨InitError.trayUnset, ?_⟩
        unfold initResult
        rw [init_withMenu cfg g mh hg hm]
        simp only [trayLoop_fst, hls]

/-- Witness for C2 at a concrete configuration where one candidate's
constructor fails and the others are falsy/absent. -/
theorem all_tray_fail_aborts_witness :
    allFail (trayCands cfgNoTray) = true ∧
    (trayBound cfgNoTray = none ∧ ∃ e, initResult cfgNoTray = Except.error e) :=
  ⟨by decide, all_tray_fail_aborts cfgNoTray (by decide)⟩

/-- Claim C10: if the `GTK3TrayMenu` import fails, the `except` clause
only logs and `GTKTrayMenu` stays unbound, so evaluating the candidate
tuple in the `for` raises `NameError` and construction fails — even
when a working native menu-helper class is available. -/
theorem import_failure_raises_nameError (cfg : InitConfig)
    (hg : cfg.gtkMenuImport = none) :
    initResult cfg = Except.error InitError.nameError := by
  unfold initResult
  rw [init_nameError cfg hg]

/-- Witness for C10: the native menu helper of this configuration is
present and constructible, yet construction still raises `NameError`. -/
theorem import_failure_raises_nameError_witness :
    cfgImportFail.gtkMenuImport = none ∧
    cfgImportFail.nativeMenuHelper = some { ctorOk := true, menuId := 3 } ∧
    initResult cfgImportFail = Except.error InitError.nameError :=
  ⟨rfl, rfl, import_failure_raises_nameError cfgImportFail rfl⟩

/-- Claim C3: a click with the primary button pressed schedules exactly
one deferred `activate(1, t)` call through `idle_add` and no popup. -/
theorem click_primary_pressed_schedules_activate (t : Nat) :
    xpra_tray_click 1 true t = [Deferred.activate 1 t] ∧
    (xpra_tray_click 1 true t).count (Deferred.activate 1 t) = 1 ∧
    ∀ b u : Nat, (xpra_tray_click 1 true t).count (Deferred.popup b u) = 0 := by
  refine ⟨rfl, ?_, ?_⟩
  · simp [xpra_tray_click]
  · intro b u
    simp [xpra_tray_click]

/-- Claim C4: a click with the secondary button released schedules
exactly one deferred `popup(3, t)` call through `idle_add` and no
activate. -/
theorem click_secondary_released_schedules_popup (t : Nat) :
    xpra_tray_click 3 false t = [Deferred.popup 3 t] ∧
    (xpra_tray_click 3 false t).count (Deferred.popup 3 t) = 1 ∧
    ∀ b u : Nat, (xpra_tray_click 3 false t).count (Deferred.activate b u) = 0 := by
  refine ⟨rfl, ?_, ?_⟩
  · simp [xpra_tray_click]
  · intro b u
    simp [xpra_tray_click]

/-- Claim C5: a primary-button release and a secondary-button press
schedule nothing — only the exact button+state pairs of the two
matching rules produce an action. -/
theorem click_mismatched_state_schedules_nothing (t : Nat) :
    xpra_tray_click 1 false t = [] ∧ xpra_tray_click 3 true t = [] :=
  ⟨rfl, rfl⟩

/-- Claim C6 is false as stated: the geometry-query callback has no
exception guard, so invoked against an absent tray handle it raises
`AttributeError` out of the handler instead of catching and logging. -/
theorem geometry_query_raises_on_absent_handle :
    xpra_tray_geometry none = Except.error PyErr.attributeError := rfl

/-- Claim C6, amended: exceptions raised inside the event callbacks are
not caught at the point of invocation — the handler bodies have no
`try`/`except` — so a geometry query against a torn-down handle
propagates the backend's exception and one against an absent handle
propagates `AttributeError` (only the separate icon-loading helper
`get_image` catches its exceptions). -/
theorem event_callback_exceptions_propagate (h : TrayHandleObj)
    (hg : h.geometry = none) :
    xpra_tray_geometry (some h) = Except.error PyErr.backendError ∧
    xpra_tray_geometry none = Except.error PyErr.attributeError := by
  constructor
  · simp [xpra_tray_geometry, TrayHandleObj.get_geometry, hg]
  · rfl

/-- Witness for the amended C6 on a concrete torn-down handle. -/
theorem event_callback_exceptions_propagate_witness :
    (TrayHandleObj.mk none).geometry = none ∧
    xpra_tray_geometry (some (TrayHandleObj.mk none)) =
      Except.error PyErr.backendError :=
  ⟨rfl, (event_callback_exceptions_propagate (TrayHandleObj.mk none) rfl).1⟩

/-- Claim C7: whenever construction attempts a tray backend, the trace
splits around a single `menuBuilt` event — the menu is built strictly
before any tray-backend constructor is attempted (no attempt precedes
it) and every attempt receives the built menu handle as its argument. -/
theorem menu_built_before_tray_attempts (cfg : InitConfig) (c : TrayClass)
    (m : Nat) (hmem : Event.trayAttempt c m ∈ initTrace cfg) :
    ∃ pre post, initTrace cfg = pre ++ Event.menuBuilt m :: post ∧
      (∀ c2 m2, Event.trayAttempt c2 m2 ∉ pre) ∧
      (∀ c2 m2, Event.trayAttempt c2 m2 ∈ post → m2 = m) := by
  cases hg : cfg.gtkMenuImport with
  | none =>
    rw [show initTrace cfg = [] from by
      unfold initTrace; rw [init_nameError cfg hg]] at hmem
    cases hmem
  | some g =>
    cases hm : menuLoop none [cfg.nativeMenuHelper, some g] with
    | none =>
      have ht : initTrace cfg = menuAttempts [cfg.nativeMenuHelper, some g] := by
        unfold initTrace
        rw [init_menuUnset cfg g hg hm]
      rw [ht] at hmem
      exact absurd hmem (menuAttempts_no_tray _ c m)
    | some mh =>
      have ht : initTrace cfg = menuAttempts [cfg.nativeMenuHelper, some g] ++
          Event.menuBuilt mh.menuId :: (trayLoop mh.menuId none (trayCands cfg)).2 := by
        unfold initTrace
        rw [init_withMenu cfg g mh hg hm]
      rw [ht] at hmem
      have hmm : m = mh.menuId := by
        rcases List.mem_append.1 hmem with h1 | h1
        · exact absurd h1 (menuAttempts_no_tray _ c m)
        · rcases List.mem_cons.1 h1 with h2 | h2
          · cases h2
          · exact trayLoop_trace_menu mh.menuId (trayCands cfg) none c m h2
      refine ⟨menuAttempts [cfg.nativeMenuHelper, some g],
        (trayLoop mh.menuId none (trayCands cfg)).2, ?_, ?_, ?_⟩
      · rw [ht, hmm]
      · intro c2 m2
        exact menuAttempts_no_tray _ c2 m2
      · intro c2 m2 h2
        rw [hmm]
        exact trayLoop_trace_menu mh.menuId (trayCands cfg) none c2 m2 h2

/-- Witness for C7 at a concrete configuration: even a failing tray
candidate's attempt happens after `menuBuilt 6` and receives handle 6. -/
theorem menu_built_before_tray_attempts_witness :
    Event.trayAttempt { ctorOk := false, handleId := 11 } 6 ∈ initTrace cfgMixed ∧
    ∃ pre post, initTrace cfgMixed = pre ++ Event.menuBuilt 6 :: post ∧
      (∀ c2 m2, Event.trayAttempt c2 m2 ∉ pre) ∧
      (∀ c2 m2, Event.trayAttempt c2 m2 ∈ post → m2 = 6) :=
  ⟨by decide,
   menu_built_before_tray_attempts cfgMixed { ctorOk := false, handleId := 11 } 6
     (by decide)⟩

/-- Claim C8: the mock client state's default encoding sequence is
non-empty and its first element equals the declared default encoding. -/
theorem default_encoding_heads_server_encodings :
    0 < fakeApplicationState.server_encodings.length ∧
    fakeApplicationState.server_encodings.head? =
      some fakeApplicationState.encoding :=
  ⟨by decide, rfl⟩

/-- Claim C9: the exit-request callback puts the coordinator in the
`Terminated` state, a second exit-request after termination changes
nothing (idempotent shutdown), `Terminated` is absorbing under every
event, and it is entered only via the exit-request event. -/
theorem exit_request_terminates_absorbing (s : AppState) :
    Terminated (handleEvent s TrayEvent.exitRequest) ∧
    handleEvent (handleEvent s TrayEvent.exitRequest) TrayEvent.exitRequest =
      handleEvent s TrayEvent.exitRequest ∧
    (∀ e, Terminated s → Terminated (handleEvent s e)) ∧
    (∀ e, Terminated (handleEvent s e) → Terminated s ∨ e = TrayEvent.exitRequest) := by
  refine ⟨rfl, rfl, ?_, ?_⟩
  · intro e hterm
    cases e with
    | click b p t => exact hterm
    | mouseover => exact hterm
    | exitRequest => rfl
    | geometryQuery => exact hterm
  · intro e hterm
    cases e with
    | click b p t => exact Or.inl hterm
    | mouseover => exact Or.inl hterm
    | exitRequest => exact Or.inr rfl
    | geometryQuery => exact Or.inl hterm

/-- Witness for C9 on concrete states: exiting from a running state
terminates, and a terminated state stays terminated across an event. -/
theorem exit_request_terminates_absorbing_witness :
    Terminated (handleEvent { pending := [], mainLoopRunning := true }
      TrayEvent.exitRequest) ∧
    Terminated (handleEvent { pending := [], mainLoopRunning := false }
      TrayEvent.mouseover) :=
  ⟨(exit_request_terminates_absorbing { pending := [], mainLoopRunning := true }).1,
   (exit_request_terminates_absorbing
     { pending := [], mainLoopRunning := false }).2.2.1 TrayEvent.mouseover rfl⟩
